import Mathlib

/-!
Shallow embedding of the core of `bevy_vector_shapes` (quad-Bezier shape
encoding, child-scope builder commands, and the spec-described paint/canvas
state) together with theorems settling the frozen claims about it.

`f32` values are modelled as rationals: every operation the embedded code
performs on them is pure data movement (copying fields, building arrays),
which is exact, so the choice of scalar carrier does not matter.
-/

namespace BVS

abbrev F32 := ℚ

/-- glam `Vec3`: three packed `f32` lanes (`repr(C)`, size 12, align 4). -/
structure Vec3 where
  x : F32
  y : F32
  z : F32
deriving DecidableEq

/-- glam `Vec4`: four `f32` lanes. -/
structure Vec4 where
  x : F32
  y : F32
  z : F32
  w : F32
deriving DecidableEq

/-- glam `Mat4`: column-major 4x4 `f32` matrix, stored as four column vectors. -/
structure Mat4 where
  x_axis : Vec4
  y_axis : Vec4
  z_axis : Vec4
  w_axis : Vec4
deriving DecidableEq

/-- A `[f32; 4]` array. -/
structure F32x4 where
  a0 : F32
  a1 : F32
  a2 : F32
  a3 : F32
deriving DecidableEq

/-- A `[[f32; 4]; 4]` array of columns, as produced by `Mat4::to_cols_array_2d`. -/
structure ColsArray2d where
  c0 : F32x4
  c1 : F32x4
  c2 : F32x4
  c3 : F32x4
deriving DecidableEq

def Vec4.to_array (v : Vec4) : F32x4 := ⟨v.x, v.y, v.z, v.w⟩

def Vec4.of_array (a : F32x4) : Vec4 := ⟨a.a0, a.a1, a.a2, a.a3⟩

/-- glam `Mat4::to_cols_array_2d`: the columns, each as a 4-array. -/
def Mat4.to_cols_array_2d (m : Mat4) : ColsArray2d :=
  ⟨m.x_axis.to_array, m.y_axis.to_array, m.z_axis.to_array, m.w_axis.to_array⟩

/-- glam `Mat4::from_cols_array_2d`: rebuild the matrix from its column arrays. -/
def Mat4.from_cols_array_2d (a : ColsArray2d) : Mat4 :=
  ⟨Vec4.of_array a.c0, Vec4.of_array a.c1, Vec4.of_array a.c2, Vec4.of_array a.c3⟩

def Vec4.scale (s : F32) (v : Vec4) : Vec4 := ⟨s * v.x, s * v.y, s * v.z, s * v.w⟩

def Vec4.add (u v : Vec4) : Vec4 := ⟨u.x + v.x, u.y + v.y, u.z + v.z, u.w + v.w⟩

/-- `m * v` for a column-major matrix: linear combination of the columns. -/
def Mat4.mulVec4 (m : Mat4) (v : Vec4) : Vec4 :=
  (Vec4.scale v.x m.x_axis).add
    ((Vec4.scale v.y m.y_axis).add
      ((Vec4.scale v.z m.z_axis).add (Vec4.scale v.w m.w_axis)))

/-- Matrix product `a * b` (columns of the product are `a` applied to `b`'s columns). -/
def Mat4.mul (a b : Mat4) : Mat4 :=
  ⟨a.mulVec4 b.x_axis, a.mulVec4 b.y_axis, a.mulVec4 b.z_axis, a.mulVec4 b.w_axis⟩

def Mat4.identity : Mat4 :=
  ⟨⟨1, 0, 0, 0⟩, ⟨0, 1, 0, 0⟩, ⟨0, 0, 1, 0⟩, ⟨0, 0, 0, 1⟩⟩

/-- Round trip of a matrix through its column-array encoding is the identity. -/
theorem Mat4.from_to_cols (m : Mat4) : Mat4.from_cols_array_2d m.to_cols_array_2d = m := rfl

/-! ## Style enums and the bit-packed flags field

`ThicknessType`, `Alignment`, `Cap`, `Flags` and `ShapeConfig` live in parts of
the repository outside the sources available here, so they are modelled from
the spec where noted. -/

/-- Modelled from the spec: `thickness_type: enum{World, Screen, Pixels}`
(the `ThicknessType` definition is not among the available sources). -/
inductive ThicknessType where
  | world
  | screen
  | pixels
deriving DecidableEq

def ThicknessType.toNat : ThicknessType → Nat
  | .world => 0
  | .screen => 1
  | .pixels => 2

/-- Modelled from the spec: `alignment: enum{Center, Outline... }`
(the `Alignment` definition is not among the available sources). -/
inductive Alignment where
  | center
  | outline
deriving DecidableEq

def Alignment.toNat : Alignment → Nat
  | .center => 0
  | .outline => 1

/-- Modelled from the spec: the cap style enum ("cap/corner style"; the spec
does not enumerate its variants, so a representative three-variant enum is
used; the `Cap` definition is not among the available sources). -/
inductive Cap where
  | cap_none
  | round
  | square
deriving DecidableEq

def Cap.toNat : Cap → Nat
  | .cap_none => 0
  | .round => 1
  | .square => 2

/-- Modelled from the spec: the bit-packed `u32` flags field
("thickness-type/alignment/cap all packed into one integer ... an explicit
tagged bitfield with documented bit ranges; provide get/set accessors that
mask/shift"; the `Flags` definition is not among the available sources).
Documented bit ranges of the model: thickness type bits 0-1, alignment
bits 2-3, cap bits 4-5. -/
structure Flags where
  val : Nat
deriving DecidableEq

/-- Mask selecting `width` bits starting at `shift`. -/
def fieldMask (shift width : Nat) : Nat := (2 ^ width - 1) <<< shift

/-- Set accessor: clear the field's bits, then or in the shifted value. -/
def Flags.setField (f : Flags) (shift width v : Nat) : Flags :=
  ⟨(f.val &&& ((2 ^ 32 - 1) ^^^ fieldMask shift width)) ||| ((v &&& (2 ^ width - 1)) <<< shift)⟩

/-- Get accessor: shift down, then mask to the field's width. -/
def Flags.getField (f : Flags) (shift width : Nat) : Nat :=
  (f.val >>> shift) &&& (2 ^ width - 1)

def Flags.set_thickness_type (f : Flags) (t : ThicknessType) : Flags :=
  f.setField 0 2 t.toNat

def Flags.set_alignment (f : Flags) (a : Alignment) : Flags :=
  f.setField 2 2 a.toNat

def Flags.set_cap (f : Flags) (c : Cap) : Flags :=
  f.setField 4 2 c.toNat

def Flags.get_thickness_type (f : Flags) : Nat := f.getField 0 2

def Flags.get_alignment (f : Flags) : Nat := f.getField 2 2

def Flags.get_cap (f : Flags) : Nat := f.getField 4 2

/-- bevy `Color`, as far as this code observes it: an RGBA float quadruple
(external collaborator type; only its `as_rgba_f32` view is used). -/
structure Color where
  r : F32
  g : F32
  b : F32
  a : F32
deriving DecidableEq

/-- bevy `Color::as_rgba_f32`: the `[f32; 4]` view of the color. -/
def Color.as_rgba_f32 (c : Color) : F32x4 := ⟨c.r, c.g, c.b, c.a⟩

/-- The pipeline selector; `Shape3d` marks entities for the 3d pipeline. -/
inductive ShapePipelineType where
  | shape2d
  | shape3d
deriving DecidableEq

/-- Modelled from the spec: `PaintConfig.transform` is "a 4x4 matrix"
(`ShapeConfig` is not among the available sources), so the transform carried
by a config is a matrix and `compute_matrix` — converting a transform to its
matrix — is the identity conversion. -/
abbrev Transform := Mat4

def Transform.compute_matrix (t : Transform) : Mat4 := t

/-- Modelled from the spec: `PaintConfig` / `ShapeConfig` ("{ transform: 4x4
matrix, color: RGBA float, thickness: f32, thickness_type, alignment, cap/
corner style, hollow: bool, canvas_target: optional handle, render_layer
filter, pipeline_type }"; the `ShapeConfig` definition is not among the
available sources). Handles are modelled as numeric ids. -/
structure ShapeConfig where
  transform : Transform
  color : Color
  thickness : F32
  thickness_type : ThicknessType
  alignment : Alignment
  cap : Cap
  hollow : Bool
  canvas : Option Nat
  render_layers : Option Nat
  pipeline : ShapePipelineType
deriving DecidableEq

/-- Modelled from the spec: `without_transform()` "produces a derived copy for
child-shape scopes that must not inherit parent placement twice" — the same
config with the transform removed (reset to the identity), every other field
unchanged (the `ShapeConfig::without_transform` source is not available). -/
def ShapeConfig.without_transform (c : ShapeConfig) : ShapeConfig :=
  { c with transform := Mat4.identity }

/-- bevy `GlobalTransform` (external collaborator type): the entity's world
transform; only its lossless conversion `compute_matrix` to a `Mat4` is
observed, so it is carried directly as that matrix. -/
structure GlobalTransform where
  matrix : Mat4
deriving DecidableEq

def GlobalTransform.compute_matrix (t : GlobalTransform) : Mat4 := t.matrix

/-! ## The quad-Bezier shape component and its GPU record
(src/shapes/quad_bezier.rs) -/

/-- `QuadBezier`: component containing the data for drawing a quadratic
Bezier curve (field-for-field from the source struct). -/
structure QuadBezier where
  color : Color
  thickness : F32
  thickness_type : ThicknessType
  alignment : Alignment
  cap : Cap
  start : Vec3
  «end» : Vec3
  control : Vec3
deriving DecidableEq

/-- `QuadBezier::new(config, start, end, control)`. -/
def QuadBezier.new (config : ShapeConfig) (start «end» control : Vec3) : QuadBezier :=
  { color := config.color
    thickness := config.thickness
    thickness_type := config.thickness_type
    alignment := config.alignment
    cap := config.cap
    start := start
    «end» := «end»
    control := control }

/-- `QuadBezierData`: raw data sent to the shader, `repr(C)`
(field-for-field from the source struct, in declaration order). -/
structure QuadBezierData where
  transform : ColsArray2d
  color : F32x4
  thickness : F32
  flags : Nat
  start : Vec3
  «end» : Vec3
  control : Vec3
deriving DecidableEq

/-- `<QuadBezier as ShapeComponent>::into_data(&self, tf)`. -/
def QuadBezier.into_data (self : QuadBezier) (tf : GlobalTransform) : QuadBezierData :=
  let flags :=
    (((Flags.mk 0).set_thickness_type self.thickness_type).set_alignment
        self.alignment).set_cap self.cap
  { transform := tf.compute_matrix.to_cols_array_2d
    color := self.color.as_rgba_f32
    thickness := self.thickness
    flags := flags.val
    start := self.start
    «end» := self.«end»
    control := self.control }

/-- `QuadBezierData::new(config, start, control, end)`. -/
def QuadBezierData.new (config : ShapeConfig) (start control «end» : Vec3) : QuadBezierData :=
  let flags :=
    (((Flags.mk 0).set_thickness_type config.thickness_type).set_alignment
        config.alignment).set_cap config.cap
  { transform := config.transform.compute_matrix.to_cols_array_2d
    color := config.color.as_rgba_f32
    thickness := config.thickness
    flags := flags.val
    start := start
    control := control
    «end» := «end» }

/-- `<QuadBezierData as ShapeData>::transform(&self)` — named `get_transform`
here because the record's field already carries the source's name. -/
def QuadBezierData.get_transform (self : QuadBezierData) : Mat4 :=
  Mat4.from_cols_array_2d self.transform

/-! ## Vertex-attribute layout (wgpu) and `repr(C)` byte layout -/

/-- The wgpu vertex formats this shader layout uses. -/
inductive VertexFormat where
  | float32
  | float32x3
  | float32x4
  | uint32
deriving DecidableEq

/-- Byte size of each vertex format. -/
def VertexFormat.size : VertexFormat → Nat
  | .float32 => 4
  | .float32x3 => 12
  | .float32x4 => 16
  | .uint32 => 4

/-- One wgpu `VertexAttribute`: format, byte offset, shader location. -/
structure VertexAttribute where
  format : VertexFormat
  offset : Nat
  shader_location : Nat
deriving DecidableEq

/-- The `vertex_attr_array!` macro: given `location => format` pairs, assigns
each attribute the byte offset right after the previous attribute (tightly
packed from offset 0). -/
def attrListFrom (off : Nat) : List (Nat × VertexFormat) → List VertexAttribute
  | [] => []
  | (loc, fmt) :: rest => ⟨fmt, off, loc⟩ :: attrListFrom (off + fmt.size) rest

def vertex_attr_array (l : List (Nat × VertexFormat)) : List VertexAttribute :=
  attrListFrom 0 l

/-- `<QuadBezierData as ShapeData>::vertex_layout()`. -/
def QuadBezierData.vertex_layout : List VertexAttribute :=
  vertex_attr_array
    [(0, .float32x4), (1, .float32x4), (2, .float32x4), (3, .float32x4),
     (4, .float32x4), (5, .float32), (6, .uint32),
     (7, .float32x3), (8, .float32x3)]

/-- Total number of bytes described by an attribute list (sum of the format
sizes; for a `vertex_attr_array` layout this is also the end offset of the
last attribute, since attributes are tightly packed). -/
def attrsTotalSize (l : List VertexAttribute) : Nat :=
  (l.map fun a => a.format.size).sum

/-- Largest byte position any attribute of the list reaches (offset plus
format size): no attribute reads a byte at or past this position. -/
def attrsEnd (l : List VertexAttribute) : Nat :=
  l.foldr (fun a m => max (a.offset + a.format.size) m) 0

/-- Rust `repr(C)` field placement: `(name, size, align)` triples in
declaration order; each field is placed at the current offset rounded up to
its alignment. Returns `(name, offset, size)` triples. -/
def alignUp (n a : Nat) : Nat := ((n + a - 1) / a) * a

def reprCOffsets (off : Nat) : List (String × Nat × Nat) → List (String × Nat × Nat)
  | [] => []
  | (n, sz, al) :: rest =>
    let o := alignUp off al
    (n, o, sz) :: reprCOffsets (o + sz) rest

def reprCEnd (off : Nat) : List (String × Nat × Nat) → Nat
  | [] => off
  | (_, sz, al) :: rest => reprCEnd (alignUp off al + sz) rest

def maxAlign (l : List (String × Nat × Nat)) : Nat :=
  l.foldr (fun f m => max f.2.2 m) 1

/-- `repr(C)` struct size: end of the last field rounded up to the struct
alignment (the max field alignment). -/
def reprCSize (l : List (String × Nat × Nat)) : Nat :=
  alignUp (reprCEnd 0 l) (maxAlign l)

/-- `QuadBezierData`'s fields as `(name, size, align)`: a `[[f32;4];4]`
(64 bytes), a `[f32;4]` (16), an `f32` (4), a `u32` (4), and three glam
`Vec3`s (12 bytes, align 4 each), in declaration order. -/
def quadBezierDataFields : List (String × Nat × Nat) :=
  [("transform", 64, 4), ("color", 16, 4), ("thickness", 4, 4), ("flags", 4, 4),
   ("start", 12, 4), ("end", 12, 4), ("control", 12, 4)]

/-! ## Child-scope builder commands (src/painter/child_commands.rs)

bevy's `Commands` (external collaborator) is modelled as a sequential entity
id allocator plus an ordered command queue; bundles are opaque payloads
carried as numeric tokens. -/

/-- A component this code inserts on a spawned child beyond its bundle. -/
inductive InsertedComponent where
  | renderLayers (l : Nat)
  | shape3d
deriving DecidableEq

/-- One queued command: spawn an entity with a bundle token (`none` for
`spawn_empty`), insert a component on an entity, or push children onto a
parent (the `PushChildren` command's write). -/
inductive Cmd where
  | spawn (id : Nat) (bundle : Option Nat)
  | insert (id : Nat) (c : InsertedComponent)
  | push_children (parent : Nat) (children : List Nat)
deriving DecidableEq

/-- bevy `Commands` (external): next fresh entity id and the command queue,
in submission order. -/
structure Commands where
  next_id : Nat
  queue : List Cmd
deriving DecidableEq

def Commands.spawn (s : Commands) (b : Nat) : Nat × Commands :=
  (s.next_id, ⟨s.next_id + 1, s.queue ++ [Cmd.spawn s.next_id (some b)]⟩)

def Commands.spawn_empty (s : Commands) : Nat × Commands :=
  (s.next_id, ⟨s.next_id + 1, s.queue ++ [Cmd.spawn s.next_id none]⟩)

/-- `Commands::add`. -/
def Commands.addCmd (s : Commands) (c : Cmd) : Commands :=
  ⟨s.next_id, s.queue ++ [c]⟩

/-- The `PushChildren` command under construction: parent entity and the
accumulated child ids (the `SmallVec` is a plain ordered list). -/
structure PushChildren where
  parent : Nat
  children : List Nat
deriving DecidableEq

/-- `ShapeEntityCommands`: entity commands (here: the entity id, with the
command state passed explicitly) plus the `ShapeConfig` they carry. -/
structure ShapeEntityCommands where
  entity : Nat
  config : ShapeConfig
deriving DecidableEq

/-- `ShapeChildBuilder`: commands access, the scope's config, and the pending
`PushChildren` command. -/
structure ShapeChildBuilder where
  commands : Commands
  config : ShapeConfig
  push_children : PushChildren
deriving DecidableEq

/-- `ShapeChildBuilder::spawn`: spawn the bundle, record the new id in the
pending children list. -/
def ShapeChildBuilder.spawn (b : ShapeChildBuilder) (bundle : Nat) :
    Nat × ShapeChildBuilder :=
  let (e, cmds) := b.commands.spawn bundle
  (e, { b with
          commands := cmds
          push_children :=
            { b.push_children with children := b.push_children.children ++ [e] } })

/-- `ShapeChildBuilder::spawn_empty`. -/
def ShapeChildBuilder.spawn_empty (b : ShapeChildBuilder) :
    Nat × ShapeChildBuilder :=
  let (e, cmds) := b.commands.spawn_empty
  (e, { b with
          commands := cmds
          push_children :=
            { b.push_children with children := b.push_children.children ++ [e] } })

/-- `<ShapeChildBuilder as ShapeSpawner>::spawn_shape`: spawn the bundle, push
the id, insert the config's render layers if present, insert the `Shape3d`
marker if the config selects the 3d pipeline, and return entity commands
carrying the builder's config. -/
def ShapeChildBuilder.spawn_shape (b : ShapeChildBuilder) (bundle : Nat) :
    ShapeEntityCommands × ShapeChildBuilder :=
  let (e, cmds) := b.commands.spawn bundle
  let cmds :=
    match b.config.render_layers with
    | some layers => cmds.addCmd (Cmd.insert e (InsertedComponent.renderLayers layers))
    | none => cmds
  let cmds :=
    match b.config.pipeline with
    | .shape3d => cmds.addCmd (Cmd.insert e InsertedComponent.shape3d)
    | .shape2d => cmds
  (⟨e, b.config⟩,
   { b with
       commands := cmds
       push_children :=
         { b.push_children with children := b.push_children.children ++ [e] } })

/-- One call the closure can make on the builder (the builder's public
surface: the three spawning methods and config replacement). -/
inductive ChildAction where
  | spawn (bundle : Nat)
  | spawn_empty
  | spawn_shape (bundle : Nat)
  | set_config (c : ShapeConfig)
deriving DecidableEq

def ShapeChildBuilder.run1 (b : ShapeChildBuilder) : ChildAction → ShapeChildBuilder
  | .spawn bundle => (b.spawn bundle).2
  | .spawn_empty => b.spawn_empty.2
  | .spawn_shape bundle => (b.spawn_shape bundle).2
  | .set_config c => { b with config := c }

/-- Run the closure's calls in order. -/
def runActions (b : ShapeChildBuilder) (acts : List ChildAction) : ShapeChildBuilder :=
  acts.foldl ShapeChildBuilder.run1 b

/-- The builder state `with_children` hands to the closure: fresh empty
children list for this parent, and the parent config without its transform. -/
def childScopeInit (parent : Nat) (config : ShapeConfig) (cmds : Commands) :
    ShapeChildBuilder :=
  ⟨cmds, config.without_transform, ⟨parent, []⟩⟩

/-- `ShapeEntityCommands::with_children`: build children through the closure,
then add the completed `PushChildren` command to the queue. -/
def ShapeEntityCommands.with_children (self : ShapeEntityCommands)
    (cmds : Commands) (spawn_children : List ChildAction) : Commands :=
  let painter := childScopeInit self.entity self.config cmds
  let final := runActions painter spawn_children
  let children := final.push_children
  final.commands.addCmd (Cmd.push_children children.parent children.children)

/-- `<EntityCommands as BuildShapeChildren>::with_shape_children`: same as
`with_children` but on a plain entity, with the config passed in. -/
def with_shape_children (entity : Nat) (config : ShapeConfig)
    (cmds : Commands) (spawn_children : List ChildAction) : Commands :=
  let painter := childScopeInit entity config cmds
  let final := runActions painter spawn_children
  let children := final.push_children
  final.commands.addCmd (Cmd.push_children children.parent children.children)

/-- Specification-side description of the ids the closure's spawning calls
create: one fresh sequential id per `spawn`/`spawn_empty`/`spawn_shape`
call, in call order. -/
def spawnedIds (next : Nat) : List ChildAction → List Nat
  | [] => []
  | .set_config _ :: rest => spawnedIds next rest
  | _ :: rest => next :: spawnedIds (next + 1) rest

/-- Number of entity-creating calls among the closure's calls. -/
def countSpawns : List ChildAction → Nat
  | [] => 0
  | .set_config _ :: rest => countSpawns rest
  | _ :: rest => countSpawns rest + 1

/-! ## Paint configuration stack (spec §4.1) and canvas redraw policy
(spec §3, §4.3) — these components are not among the available sources. -/

/-- Modelled from the spec: the painter's state — "one Paint Configuration"
plus "a stack of saved snapshots (push/pop semantics)" (the painter source is
not available). -/
structure Painter where
  config : ShapeConfig
  stack : List ShapeConfig
deriving DecidableEq

/-- Modelled from the spec: "`save()` pushes a deep copy of current config
onto an internal stack". -/
def Painter.save (p : Painter) : Painter :=
  ⟨p.config, p.config :: p.stack⟩

/-- Modelled from the spec: "`restore()` pops and replaces current config,
failing (no-op or explicit underflow error) if the stack is empty" — the
no-op policy is taken for the empty stack. -/
def Painter.restore (p : Painter) : Painter :=
  match p.stack with
  | [] => p
  | c :: rest => ⟨c, rest⟩

/-- One call of a save/restore sequence. -/
inductive POp where
  | save
  | restore
deriving DecidableEq

def Painter.step (p : Painter) : POp → Painter
  | .save => p.save
  | .restore => p.restore

def Painter.run (p : Painter) (ops : List POp) : Painter :=
  ops.foldl Painter.step p

/-- Sequences of `save()`/`restore()` calls with matching counts: every
`restore` closes a matching prior `save`. -/
inductive Balanced : List POp → Prop
  | nil : Balanced []
  | wrap {l : List POp} : Balanced l → Balanced (POp.save :: l ++ [POp.restore])
  | append {l₁ l₂ : List POp} : Balanced l₁ → Balanced l₂ → Balanced (l₁ ++ l₂)

/-- Modelled from the spec: canvas redraw modes
`enum{Continuous, Persistent, OnDemand}` (the canvas source is not
available). -/
inductive CanvasMode where
  | continuous
  | persistent
  | on_demand
deriving DecidableEq

/-- Modelled from the spec: the canvas state the redraw policy observes —
`{ size: (u32,u32), mode, dirty: bool }` (image/depth/camera handles carry no
behaviour here and are omitted; the canvas source is not available). -/
structure Canvas where
  width : Nat
  height : Nat
  mode : CanvasMode
  dirty : Bool
deriving DecidableEq

/-- Modelled from the spec: "`redraw()` sets dirty=true". -/
def Canvas.redraw (c : Canvas) : Canvas := { c with dirty := true }

/-- Modelled from the spec: "redraw only happens when mode==Continuous, or
mode∈{Persistent,OnDemand} and dirty==true". -/
def Canvas.should_render (c : Canvas) : Bool :=
  match c.mode with
  | .continuous => true
  | .persistent => c.dirty
  | .on_demand => c.dirty

/-- One frame of the compositor for this canvas: if the policy says redraw,
the canvas is rendered and the pending invalidation is consumed
(spec: Persistent/OnDemand render once per invalidation, then reuse the
cached image). -/
def Canvas.frame (c : Canvas) : Canvas :=
  if c.should_render then { c with dirty := false } else c

/-- How many of the next `n` frames render this canvas. -/
def Canvas.renders (c : Canvas) : Nat → Nat
  | 0 => 0
  | n + 1 => (if c.should_render then 1 else 0) + c.frame.renders n

/-! ## Concrete sample values used by counterexamples and witnesses -/

def vzero : Vec3 := ⟨0, 0, 0⟩

/-- A default-ish concrete config (identity transform, black, thickness 1). -/
def cfg0 : ShapeConfig :=
  { transform := Mat4.identity
    color := ⟨0, 0, 0, 1⟩
    thickness := 1
    thickness_type := .world
    alignment := .center
    cap := .cap_none
    hollow := false
    canvas := none
    render_layers := none
    pipeline := .shape2d }

/-- Translation by `d` along x as a column-major matrix. -/
def translationX (d : F32) : Mat4 :=
  ⟨⟨1, 0, 0, 0⟩, ⟨0, 1, 0, 0⟩, ⟨0, 0, 1, 0⟩, ⟨d, 0, 0, 1⟩⟩

/-- A config whose transform is a nontrivial placement. -/
def cfgT : ShapeConfig := { cfg0 with transform := translationX 1 }

/-- A nontrivial world transform. -/
def wT : GlobalTransform := ⟨translationX 5⟩

/-! ## Claims -/

/-- C1: the claim says `QuadBezierData::vertex_layout()` covers the
`repr(C)` struct field for field with no omission, the described total size
equalling the struct size. It does not: the struct is 124 bytes (its three
`Vec3` fields end at byte 124) but the attribute list describes only
112 bytes — the `control` field, laid out at bytes [112, 124), is covered by
no attribute (the list stops after two `Float32x3` point attributes where the
struct has three points). -/
theorem quad_bezier_vertex_layout_omits_control :
    attrsTotalSize QuadBezierData.vertex_layout = 112 ∧
    reprCSize quadBezierDataFields = 124 ∧
    attrsTotalSize QuadBezierData.vertex_layout ≠ reprCSize quadBezierDataFields ∧
    ("control", 112, 12) ∈ reprCOffsets 0 quadBezierDataFields ∧
    attrsEnd QuadBezierData.vertex_layout = 112 :=
  ⟨rfl, rfl, by decide, by decide, rfl⟩

/-- C4: encoding a transform matrix into a `QuadBezierData` record (as the
4x4 `f32` column array) and decoding it back through the record's documented
inverse (`Mat4::from_cols_array_2d`) reproduces the matrix exactly. -/
theorem transform_encode_decode_roundtrip (m : Mat4) (cfg : ShapeConfig)
    (s c e : Vec3) :
    (QuadBezierData.new { cfg with transform := m } s c e).get_transform = m ∧
    Mat4.from_cols_array_2d m.to_cols_array_2d = m :=
  ⟨rfl, rfl⟩

/-- C3 (counterexample): the encoded record's transform is not the config
transform composed with the world transform. For a component built from a
config carrying translation-by-1 and encoded at a world transform carrying
translation-by-5, the record holds exactly the world transform, which differs
from the composition in either order. -/
theorem record_transform_not_composed :
    ((QuadBezier.new cfgT vzero vzero vzero).into_data wT).get_transform
        ≠ Mat4.mul cfgT.transform.compute_matrix wT.compute_matrix ∧
    ((QuadBezier.new cfgT vzero vzero vzero).into_data wT).get_transform
        ≠ Mat4.mul wT.compute_matrix cfgT.transform.compute_matrix ∧
    ((QuadBezier.new cfgT vzero vzero vzero).into_data wT).get_transform
        = wT.compute_matrix := by
  refine ⟨?_, ?_, rfl⟩ <;>
    norm_num [QuadBezier.new, QuadBezier.into_data, cfgT, cfg0, wT, translationX,
      GlobalTransform.compute_matrix, Transform.compute_matrix,
      QuadBezierData.get_transform, Mat4.from_cols_array_2d, Mat4.to_cols_array_2d,
      Mat4.mul, Mat4.mulVec4, Vec4.scale, Vec4.add, Vec4.to_array, Vec4.of_array,
      Mat4.identity, Mat4.mk.injEq, Vec4.mk.injEq]

/-- C3 (amended): each encoding path draws its transform from a single
source and encodes it in full — the immediate-mode record
(`QuadBezierData::new`) holds exactly the config's current transform matrix,
and a persistent component's record (`into_data`) holds exactly the entity's
world transform at encode time; the component does not capture the config
transform at all, so no composition of the two occurs in either path. -/
theorem record_transform_single_source (cfg : ShapeConfig) (tf : GlobalTransform)
    (s e c : Vec3) (t : Transform) :
    (QuadBezierData.new cfg s c e).get_transform = cfg.transform.compute_matrix ∧
    ((QuadBezier.new cfg s e c).into_data tf).get_transform = tf.compute_matrix ∧
    (QuadBezier.new { cfg with transform := t } s e c).into_data tf
      = (QuadBezier.new cfg s e c).into_data tf :=
  ⟨rfl, rfl, rfl⟩

/-- C5: a child-shape scope starts from the parent's config with the
transform removed (reset to the identity), all other fields unchanged —
this is the builder state both `with_children` and `with_shape_children`
construct for the closure. -/
theorem child_scope_config_without_transform (parent : Nat) (cfg : ShapeConfig)
    (cmds : Commands) :
    (childScopeInit parent cfg cmds).config = cfg.without_transform ∧
    cfg.without_transform.transform = Mat4.identity ∧
    cfg.without_transform.color = cfg.color ∧
    cfg.without_transform.thickness = cfg.thickness ∧
    cfg.without_transform.thickness_type = cfg.thickness_type ∧
    cfg.without_transform.alignment = cfg.alignment ∧
    cfg.without_transform.cap = cfg.cap ∧
    cfg.without_transform.hollow = cfg.hollow ∧
    cfg.without_transform.canvas = cfg.canvas ∧
    cfg.without_transform.render_layers = cfg.render_layers ∧
    cfg.without_transform.pipeline = cfg.pipeline :=
  ⟨rfl, rfl, rfl, rfl, rfl, rfl, rfl, rfl, rfl, rfl, rfl⟩

/-- C10: `QuadBezier::new` snapshots exactly the five style fields (color,
thickness, thickness type, alignment, cap) from the config and stores the
three given points; it does not capture the config transform (configs
differing only in transform yield the same component), and at encode time
the record's placement comes solely from the entity's world transform. -/
theorem quad_bezier_new_snapshot (cfg : ShapeConfig) (s e c : Vec3)
    (t : Transform) (tf : GlobalTransform) :
    (QuadBezier.new cfg s e c).color = cfg.color ∧
    (QuadBezier.new cfg s e c).thickness = cfg.thickness ∧
    (QuadBezier.new cfg s e c).thickness_type = cfg.thickness_type ∧
    (QuadBezier.new cfg s e c).alignment = cfg.alignment ∧
    (QuadBezier.new cfg s e c).cap = cfg.cap ∧
    (QuadBezier.new cfg s e c).start = s ∧
    (QuadBezier.new cfg s e c).«end» = e ∧
    (QuadBezier.new cfg s e c).control = c ∧
    QuadBezier.new { cfg with transform := t } s e c = QuadBezier.new cfg s e c ∧
    ((QuadBezier.new cfg s e c).into_data tf).get_transform = tf.compute_matrix :=
  ⟨rfl, rfl, rfl, rfl, rfl, rfl, rfl, rfl, rfl, rfl⟩

/-- The three packed fields occupy disjoint bit ranges: packing any
thickness type, alignment and cap into an all-zero bitfield lets each get
accessor recover its own value. -/
theorem flags_pack_unpack (tt : ThicknessType) (al : Alignment) (cp : Cap) :
    ((((Flags.mk 0).set_thickness_type tt).set_alignment al).set_cap
        cp).get_thickness_type = tt.toNat ∧
    ((((Flags.mk 0).set_thickness_type tt).set_alignment al).set_cap
        cp).get_alignment = al.toNat ∧
    ((((Flags.mk 0).set_thickness_type tt).set_alignment al).set_cap
        cp).get_cap = cp.toNat := by
  cases tt <;> cases al <;> cases cp <;> exact ⟨rfl, rfl, rfl⟩

/-- C6: on both encode paths — the immediate-mode `QuadBezierData::new` and
the persistent component's `QuadBezier::into_data` — the thickness type,
alignment and cap are packed into the single `u32` flags field of the record,
starting from an all-zero bitfield, via the `Flags` set accessors; nothing
else contributes — every other config field (for `new`) and every other
component field and the world transform (for `into_data`) may change without
changing the flags — and each packed value is recoverable from the field by
its get accessor. -/
theorem quad_bezier_flags_packing (cfg : ShapeConfig) (s c e : Vec3)
    (t : Transform) (col : Color) (th : F32) (hol : Bool) (cv rl : Option Nat)
    (pl : ShapePipelineType) (qb : QuadBezier) (tf tf' : GlobalTransform)
    (col' : Color) (th' : F32) (s' e' c' : Vec3) :
    (QuadBezierData.new cfg s c e).flags =
      ((((Flags.mk 0).set_thickness_type cfg.thickness_type).set_alignment
          cfg.alignment).set_cap cfg.cap).val ∧
    (QuadBezierData.new
        { cfg with
          transform := t
          color := col
          thickness := th
          hollow := hol
          canvas := cv
          render_layers := rl
          pipeline := pl } s c e).flags = (QuadBezierData.new cfg s c e).flags ∧
    (Flags.mk (QuadBezierData.new cfg s c e).flags).get_thickness_type
      = cfg.thickness_type.toNat ∧
    (Flags.mk (QuadBezierData.new cfg s c e).flags).get_alignment
      = cfg.alignment.toNat ∧
    (Flags.mk (QuadBezierData.new cfg s c e).flags).get_cap = cfg.cap.toNat ∧
    (qb.into_data tf).flags =
      ((((Flags.mk 0).set_thickness_type qb.thickness_type).set_alignment
          qb.alignment).set_cap qb.cap).val ∧
    (({ qb with
          color := col'
          thickness := th'
          start := s'
          «end» := e'
          control := c' } : QuadBezier).into_data tf').flags
      = (qb.into_data tf).flags ∧
    (Flags.mk (qb.into_data tf).flags).get_thickness_type
      = qb.thickness_type.toNat ∧
    (Flags.mk (qb.into_data tf).flags).get_alignment = qb.alignment.toNat ∧
    (Flags.mk (qb.into_data tf).flags).get_cap = qb.cap.toNat := by
  refine ⟨rfl, rfl, ?_, ?_, ?_, rfl, rfl, ?_, ?_, ?_⟩
  · exact (flags_pack_unpack cfg.thickness_type cfg.alignment cfg.cap).1
  · exact (flags_pack_unpack cfg.thickness_type cfg.alignment cfg.cap).2.1
  · exact (flags_pack_unpack cfg.thickness_type cfg.alignment cfg.cap).2.2
  · exact (flags_pack_unpack qb.thickness_type qb.alignment qb.cap).1
  · exact (flags_pack_unpack qb.thickness_type qb.alignment qb.cap).2.1
  · exact (flags_pack_unpack qb.thickness_type qb.alignment qb.cap).2.2

/-- C9: `spawn_shape` spawns the bundle on a fresh entity, appends that
entity's id to the pending children list (parent unchanged), inserts the
config's render-layers component exactly when `config.render_layers` is
`Some`, inserts the `Shape3d` marker exactly when the config selects the 3d
pipeline, and returns entity commands carrying the builder's config. -/
theorem spawn_shape_inserts_and_links (b : ShapeChildBuilder) (bundle : Nat) :
    (b.spawn_shape bundle).1.entity = b.commands.next_id ∧
    (b.spawn_shape bundle).1.config = b.config ∧
    (b.spawn_shape bundle).2.push_children.parent = b.push_children.parent ∧
    (b.spawn_shape bundle).2.push_children.children
      = b.push_children.children ++ [b.commands.next_id] ∧
    (b.spawn_shape bundle).2.config = b.config ∧
    (b.spawn_shape bundle).2.commands.queue
      = b.commands.queue ++ [Cmd.spawn b.commands.next_id (some bundle)]
        ++ (match b.config.render_layers with
            | some l => [Cmd.insert b.commands.next_id
                (InsertedComponent.renderLayers l)]
            | none => [])
        ++ (match b.config.pipeline with
            | .shape3d => [Cmd.insert b.commands.next_id InsertedComponent.shape3d]
            | .shape2d => []) ∧
    (∀ l : Nat,
      Cmd.insert b.commands.next_id (InsertedComponent.renderLayers l)
          ∈ ((b.spawn_shape bundle).2.commands.queue.drop b.commands.queue.length)
        ↔ b.config.render_layers = some l) ∧
    (Cmd.insert b.commands.next_id InsertedComponent.shape3d
        ∈ ((b.spawn_shape bundle).2.commands.queue.drop b.commands.queue.length)
      ↔ b.config.pipeline = .shape3d) := by
  refine ⟨rfl, rfl, rfl, rfl, rfl, ?_, ?_, ?_⟩ <;>
    rcases hl : b.config.render_layers with _ | l' <;>
    rcases hp : b.config.pipeline <;>
    simp [ShapeChildBuilder.spawn_shape, Commands.spawn, Commands.addCmd, hl, hp,
      List.drop_left, List.append_assoc, eq_comm]

/-- No builder call ever queues a `push_children` command: any such command
in the queue after a call was already there before it. -/
theorem run1_no_push (b : ShapeChildBuilder) (a : ChildAction) (p : Nat)
    (ch : List Nat) :
    Cmd.push_children p ch ∈ (b.run1 a).commands.queue →
    Cmd.push_children p ch ∈ b.commands.queue := by
  cases a with
  | spawn bundle =>
    intro h
    simpa [ShapeChildBuilder.run1, ShapeChildBuilder.spawn, Commands.spawn] using h
  | spawn_empty =>
    intro h
    simpa [ShapeChildBuilder.run1, ShapeChildBuilder.spawn_empty,
      Commands.spawn_empty] using h
  | spawn_shape bundle =>
    intro h
    rcases hl : b.config.render_layers with _ | l <;>
      rcases hp : b.config.pipeline <;>
      simpa [ShapeChildBuilder.run1, ShapeChildBuilder.spawn_shape,
        Commands.spawn, Commands.addCmd, hl, hp] using h
  | set_config cfg => exact id

/-- One builder call: the parent is untouched, the children list grows by
exactly the ids the call spawns, and the id allocator advances by the number
of spawns. -/
theorem run1_facts (b : ShapeChildBuilder) (a : ChildAction) :
    (b.run1 a).push_children.parent = b.push_children.parent ∧
    (b.run1 a).push_children.children
      = b.push_children.children ++ spawnedIds b.commands.next_id [a] ∧
    (b.run1 a).commands.next_id = b.commands.next_id + countSpawns [a] := by
  cases a with
  | spawn bundle => exact ⟨rfl, rfl, rfl⟩
  | spawn_empty => exact ⟨rfl, rfl, rfl⟩
  | spawn_shape bundle =>
    refine ⟨rfl, rfl, ?_⟩
    rcases hl : b.config.render_layers with _ | l <;>
      rcases hp : b.config.pipeline <;>
      simp [ShapeChildBuilder.run1, ShapeChildBuilder.spawn_shape,
        Commands.spawn, Commands.addCmd, hl, hp, countSpawns]
  | set_config cfg =>
    exact ⟨rfl, by simp [ShapeChildBuilder.run1, spawnedIds], rfl⟩

/-- Running a whole closure: parent untouched, children list extended by
exactly the sequentially allocated ids of the spawning calls in call order,
allocator advanced by the spawn count, and no `push_children` command queued. -/
theorem runActions_spec (acts : List ChildAction) :
    ∀ b : ShapeChildBuilder,
      (runActions b acts).push_children.parent = b.push_children.parent ∧
      (runActions b acts).push_children.children
        = b.push_children.children ++ spawnedIds b.commands.next_id acts ∧
      (runActions b acts).commands.next_id
        = b.commands.next_id + countSpawns acts ∧
      (∀ p ch, Cmd.push_children p ch ∈ (runActions b acts).commands.queue →
        Cmd.push_children p ch ∈ b.commands.queue) := by
  induction acts with
  | nil =>
    intro b
    exact ⟨rfl, by simp [runActions, spawnedIds], rfl, fun p ch h => h⟩
  | cons a rest ih =>
    intro b
    have hrest := ih (b.run1 a)
    have hno := run1_no_push b a
    have h1 := (run1_facts b a).1
    have h2 := (run1_facts b a).2.1
    have h3 := (run1_facts b a).2.2
    have hrun : runActions b (a :: rest) = runActions (b.run1 a) rest := rfl
    refine ⟨?_, ?_, ?_, ?_⟩
    · rw [hrun, hrest.1, h1]
    · rw [hrun, hrest.2.1, h2, h3]
      cases a <;> simp [spawnedIds, countSpawns]
    · rw [hrun, hrest.2.2.1, h3]
      cases a <;> simp [countSpawns] <;> omega
    · intro p ch h
      exact hno p ch (hrest.2.2.2 p ch (hrun ▸ h))

theorem spawnedIds_length (acts : List ChildAction) :
    ∀ next, (spawnedIds next acts).length = countSpawns acts := by
  induction acts with
  | nil => intro next; rfl
  | cons a rest ih => intro next; cases a <;> simp [spawnedIds, countSpawns, ih]

/-- C2: `with_children` adds the parent's `PushChildren` command to the queue
only after the whole closure has run — it is the single command after every
command the closure queued, the closure itself queues no `push_children` —
and it carries exactly the entity ids created by the closure's `spawn`,
`spawn_empty` and `spawn_shape` calls, in call order (so their count equals
the number of spawning calls); `with_shape_children` behaves identically. -/
theorem with_children_commits_children_after_scope (self : ShapeEntityCommands)
    (cmds : Commands) (acts : List ChildAction) :
    (self.with_children cmds acts).queue
      = (runActions (childScopeInit self.entity self.config cmds) acts).commands.queue
        ++ [Cmd.push_children self.entity (spawnedIds cmds.next_id acts)] ∧
    (spawnedIds cmds.next_id acts).length = countSpawns acts ∧
    (∀ p ch, Cmd.push_children p ch
        ∈ (runActions (childScopeInit self.entity self.config cmds) acts).commands.queue →
      Cmd.push_children p ch ∈ cmds.queue) ∧
    with_shape_children self.entity self.config cmds acts
      = self.with_children cmds acts := by
  have h := runActions_spec acts (childScopeInit self.entity self.config cmds)
  refine ⟨?_, spawnedIds_length acts cmds.next_id, ?_, rfl⟩
  · have e1 := h.1
    have e2 := h.2.1
    simp only [childScopeInit] at e1 e2
    simp [ShapeEntityCommands.with_children, Commands.addCmd, childScopeInit, e1, e2]
  · exact fun p ch hm => h.2.2.2 p ch hm

/-- A concrete parent, command state, and closure spawning three child
shapes, for the child-scope witness. -/
def selfP : ShapeEntityCommands := ⟨0, cfgT⟩

def cmds0 : Commands := ⟨1, []⟩

def acts3 : List ChildAction :=
  [ChildAction.spawn_shape 7, ChildAction.spawn_shape 8, ChildAction.spawn_shape 9]

theorem with_children_commits_children_after_scope_witness :
    ((selfP.with_children cmds0 acts3).queue
      = (runActions (childScopeInit selfP.entity selfP.config cmds0)
            acts3).commands.queue
        ++ [Cmd.push_children selfP.entity (spawnedIds cmds0.next_id acts3)] ∧
    (spawnedIds cmds0.next_id acts3).length = countSpawns acts3 ∧
    (∀ p ch, Cmd.push_children p ch
        ∈ (runActions (childScopeInit selfP.entity selfP.config cmds0)
            acts3).commands.queue →
      Cmd.push_children p ch ∈ cmds0.queue) ∧
    with_shape_children selfP.entity selfP.config cmds0 acts3
      = selfP.with_children cmds0 acts3) ∧
    spawnedIds cmds0.next_id acts3 = [1, 2, 3] :=
  ⟨with_children_commits_children_after_scope selfP cmds0 acts3, rfl⟩

/-- Any balanced save/restore sequence leaves the painter (config and stack)
exactly as it was. -/
theorem run_balanced {ops : List POp} (h : Balanced ops) :
    ∀ p : Painter, p.run ops = p := by
  induction h with
  | nil => intro p; rfl
  | wrap _ ih =>
    intro p
    show List.foldl Painter.step p ((POp.save :: _) ++ [POp.restore]) = p
    rw [List.foldl_append]
    rw [show List.foldl Painter.step p (POp.save :: _) = p.save from ih p.save]
    rfl
  | append _ _ ih₁ ih₂ =>
    intro p
    rw [Painter.run, List.foldl_append]
    rw [show List.foldl Painter.step p _ = p from ih₁ p]
    exact ih₂ p

/-- C7: for every save/restore sequence with matching counts the paint config
(and the whole stack) after the sequence equals the one before it; moreover
`save` pushes a copy of the current config onto the stack leaving the current
config unchanged, and `restore` pops it back, so `restore` after `save` is
the identity. -/
theorem save_restore_roundtrip (p : Painter) (ops : List POp)
    (h : Balanced ops) :
    p.run ops = p ∧
    p.save.config = p.config ∧
    p.save.stack = p.config :: p.stack ∧
    p.save.restore = p :=
  ⟨run_balanced h p, rfl, rfl, rfl⟩

/-- A concrete painter for the save/restore witness. -/
def painter0 : Painter := ⟨cfg0, []⟩

theorem save_restore_roundtrip_witness :
    painter0.run [POp.save, POp.restore] = painter0 ∧
    painter0.save.config = painter0.config ∧
    painter0.save.stack = painter0.config :: painter0.stack ∧
    painter0.save.restore = painter0 :=
  save_restore_roundtrip painter0 [POp.save, POp.restore]
    (Balanced.wrap Balanced.nil)

/-- A canvas whose redraw policy says "no" renders nowhere and never changes. -/
theorem renders_zero_of_clean (c : Canvas) (h : c.should_render = false) :
    ∀ n, c.renders n = 0 := by
  intro n
  induction n with
  | zero => rfl
  | succ n ih =>
    have hf : c.frame = c := by rw [Canvas.frame, h]; rfl
    simp [Canvas.renders, h, hf, ih]

/-- C8: an `OnDemand` canvas with no pending `redraw()` renders zero times
over any number of frames; after one `redraw()` call it renders exactly once
(on the first frame that runs) and then zero times again until the next
`redraw()`; in general a frame redraws exactly when the mode is `Continuous`,
or the mode is `Persistent` or `OnDemand` and the dirty flag is set. -/
theorem on_demand_canvas_render_counts (w h n : Nat) :
    (Canvas.mk w h .on_demand false).renders n = 0 ∧
    ((Canvas.mk w h .on_demand false).redraw).renders n = min 1 n ∧
    (∀ c : Canvas, c.should_render = true ↔
      (c.mode = .continuous ∨
        ((c.mode = .persistent ∨ c.mode = .on_demand) ∧ c.dirty = true))) := by
  refine ⟨renders_zero_of_clean (Canvas.mk w h .on_demand false) rfl n, ?_, ?_⟩
  · cases n with
    | zero => rfl
    | succ n =>
      have h0 : ((Canvas.mk w h .on_demand false).redraw).frame
          = Canvas.mk w h .on_demand false := rfl
      rw [Canvas.renders, h0,
        renders_zero_of_clean (Canvas.mk w h .on_demand false) rfl n]
      simp [Canvas.redraw, Canvas.should_render]
  · rintro ⟨w', h', mode, dirty⟩
    cases mode <;> cases dirty <;> simp [Canvas.should_render]

end BVS
